import Mathlib

/-!
Verification of the page-composition logic of the falmusha.me repository.

The repository is a Gatsby site; the one piece of logic is the layout
component in src/layouts/index.js (the Page Composer of the spec).  It
receives a children prop and a data prop (the result of the LayoutQuery
GraphQL query over the gatsby-config.js site metadata) and renders a Body
element containing a Helmet (document title, fixed meta tags, a style tag
with a background-color rule), a Header region and a Container holding the
result of invoking children().

The embedding below follows the JavaScript source.  Fields the code may
find absent at runtime (the queried site record, the children prop) are
Options; a JavaScript TypeError is an Except.error.  JSX argument
evaluation is left to right, so the access data.site.siteMetadata.title in
the Helmet props is evaluated before children() is invoked in the
Container.
-/

namespace Falmusha

/-- Site metadata record, shaped as the siteMetadata object declared in
gatsby-config.js: a site title and an author name. -/
structure SiteMetadata where
  title : String
  author : String
  deriving DecidableEq, Repr

/-- The concrete siteMetadata value of gatsby-config.js. -/
def configSiteMetadata : SiteMetadata :=
  { title := "Fahad Almusharraf - Website", author := "Fahad Almusharraf" }

namespace COLORS

/-- Modelled from the spec: the color palette module (src/colors) imported
by src/layouts/index.js is not present under src/; the spec speaks only of
a background color token, so its concrete value is an arbitrary fixed
string and no claim depends on it. -/
def LIGHTEST : String := "color-lightest"

end COLORS

/-- The slice of the site metadata selected by the LayoutQuery: only the
title field. -/
structure QueriedSiteMetadata where
  title : String
  deriving DecidableEq, Repr

/-- The queried site record wrapping the selected metadata. -/
structure QueriedSite where
  siteMetadata : QueriedSiteMetadata
  deriving DecidableEq, Repr

/-- The data prop handed to the layout component; site is none when the
required site metadata is absent (a null in JavaScript). -/
structure LayoutQueryData where
  site : Option QueriedSite
  deriving DecidableEq, Repr

/-- The LayoutQuery of src/layouts/index.js: it selects site, then
siteMetadata, then title, and nothing else, from the configured site
metadata. -/
def layoutQuery (m : Option SiteMetadata) : LayoutQueryData :=
  { site := m.map fun md => { siteMetadata := { title := md.title } } }

/-- One meta tag of the Helmet meta prop: a name and a content string. -/
structure MetaTag where
  name : String
  content : String
  deriving DecidableEq, Repr

/-- A child element of the Helmet: the style tag with its type attribute
and its css text. -/
inductive HelmetChild where
  | styleTag (typeAttr : String) (css : String)
  deriving DecidableEq, Repr

/-- The props of the Helmet element: document title, meta tag list, and
child elements. -/
structure HelmetProps where
  title : String
  meta : List MetaTag
  children : List HelmetChild
  deriving DecidableEq, Repr

/-- One child of the Body element, in the order the JSX lists them: the
Helmet, the Header region (an external component, rendered as an opaque
region), and the Container holding the rendered page content. -/
inductive BodyChild where
  | helmet (props : HelmetProps)
  | headerRegion
  | container (content : String)
  deriving DecidableEq, Repr

/-- The document produced by the layout: the Body element with its
children. -/
structure Document where
  body : List BodyChild
  deriving DecidableEq, Repr

/-- A JavaScript value supplied as the children prop: either a
zero-argument function producing markup (what the layout expects), or
plain markup, which is not callable. -/
inductive JsChild where
  | fn (f : Unit → String)
  | markup (s : String)

/-- The TypeError raised when data.site is null and the layout reads its
siteMetadata field. -/
def siteMetadataAbsentError : String :=
  "TypeError: cannot read siteMetadata of null"

/-- The TypeError raised when the layout invokes children() and the
children prop is absent or is not a function. -/
def childrenNotCallableError : String :=
  "TypeError: children is not a function"

/-- The css text interpolated into the style tag of the Helmet, with the
background-color rule on the body. -/
def bodyStyleCss : String :=
  "\n        body \x7b\n          background-color: " ++ COLORS.LIGHTEST
    ++ ";\n        \x7d\n    "

/-- The default export of src/layouts/index.js: the layout component.
It reads data.site.siteMetadata.title for the Helmet title (a TypeError if
site is null), renders the two fixed meta tags and the style tag, then the
Header region, then the Container with the result of children() (a
TypeError if children is absent or not a function). -/
def layout (children : Option JsChild) (data : LayoutQueryData) :
    Except String Document :=
  match data.site with
  | none => .error siteMetadataAbsentError
  | some site =>
    match children with
    | none => .error childrenNotCallableError
    | some (.markup _) => .error childrenNotCallableError
    | some (.fn f) =>
      .ok { body := [
        .helmet {
          title := site.siteMetadata.title,
          meta := [
            { name := "description", content := "Personal website" },
            { name := "keywords", content := "blog, showcase, personal" } ],
          children := [ .styleTag "text/css" bodyStyleCss ] },
        .headerRegion,
        .container (f ()) ] }

/-- Page composition end to end: run the LayoutQuery over the (possibly
absent) site metadata and hand its result to the layout together with the
page content. -/
def compose (m : Option SiteMetadata) (c : Option JsChild) :
    Except String Document :=
  layout c (layoutQuery m)

/-- The text of the document-level title tag: the title of the first (and
only) Helmet among the Body children. -/
def Document.titleTag (d : Document) : Option String :=
  d.body.findSome? fun
    | .helmet p => some p.title
    | _ => none

/-- The meta tags of the document: the meta list of the first Helmet. -/
def Document.metaTags (d : Document) : List MetaTag :=
  (d.body.findSome? fun
    | .helmet p => some p.meta
    | _ => none).getD []

/-- Whether the document contains the Header region. -/
def Document.hasHeaderRegion (d : Document) : Bool :=
  d.body.any fun
    | .headerRegion => true
    | _ => false

/-- The content placed inside the Container region. -/
def Document.containerContent (d : Document) : Option String :=
  d.body.findSome? fun
    | .container s => some s
    | _ => none

/-- An Article of the content model: front-matter title and date, and a
markdown body, as in src/pages/articles. -/
structure Article where
  title : String
  date : String
  body : String
  deriving DecidableEq, Repr

/-- The front-matter of src/pages/articles/2015-12-27-ssl-cav.md, with a
given rendered body. -/
def sslCavArticle (body : String) : Article :=
  { title := "Enforcing SSL CA verification", date := "2015-12-27",
    body := body }

/-- C1: for every valid site metadata record and every page content
function (the empty content included), the composed document has its
title tag equal to the title field of the metadata. -/
theorem compose_titleTag_eq (m : SiteMetadata) (f : Unit → String) :
    ∃ d, compose (some m) (some (.fn f)) = .ok d ∧
      d.titleTag = some m.title :=
  ⟨_, rfl, rfl⟩

/-- C2: the Page Composer is deterministic: composing the same metadata
and content twice yields identical documents (the embedding being a total
function, the transformation has no effect beyond its output). -/
theorem compose_deterministic (m : Option SiteMetadata) (c : Option JsChild)
    (d₁ d₂ : Document) (h₁ : compose m c = .ok d₁)
    (h₂ : compose m c = .ok d₂) : d₁ = d₂ := by
  rw [h₁] at h₂
  exact Except.ok.inj h₂

/-- The document composed from the gatsby-config.js metadata and the
content function returning the paragraph Hello. -/
def helloDoc : Document :=
  { body := [
      .helmet {
        title := "Fahad Almusharraf - Website",
        meta := [
          { name := "description", content := "Personal website" },
          { name := "keywords", content := "blog, showcase, personal" } ],
        children := [ .styleTag "text/css" bodyStyleCss ] },
      .headerRegion,
      .container "<p>Hello</p>" ] }

/-- Witness for C2 at a concrete input. -/
theorem compose_deterministic_witness : helloDoc = helloDoc :=
  compose_deterministic (some configSiteMetadata)
    (some (.fn fun _ => "<p>Hello</p>")) helloDoc helloDoc rfl rfl

/-- C3 counterexample: with the children prop omitted entirely, the layout
invokes children() and composition fails with a TypeError rather than
producing a document, even with valid site metadata. -/
theorem compose_omitted_children_fails :
    compose (some configSiteMetadata) none =
      .error childrenNotCallableError :=
  rfl

/-- C3 amended: if the content function is supplied but produces empty
content, the composer still produces a document containing the header and
the global frame, with an empty content region. -/
theorem compose_empty_content_renders (m : SiteMetadata) :
    ∃ d, compose (some m) (some (.fn fun _ => "")) = .ok d ∧
      d.hasHeaderRegion = true ∧ d.titleTag = some m.title ∧
      d.containerContent = some "" :=
  ⟨_, rfl, rfl, rfl, rfl⟩

/-- C4 counterexample: with site metadata present, supplying the content
as plain markup instead of a function still makes composition error, so
absent site metadata is not the only input condition causing an error. -/
theorem compose_markup_children_fails :
    compose (some configSiteMetadata) (some (.markup "<p>Hello</p>")) =
      .error childrenNotCallableError :=
  rfl

/-- C4 amended: with site metadata absent composition fails fast with the
configuration TypeError whatever the content is, and with site metadata
present and a callable content function supplied, composition always
succeeds. -/
theorem compose_error_conditions :
    (∀ c, compose none c = .error siteMetadataAbsentError) ∧
    (∀ (m : SiteMetadata) (f : Unit → String),
      ∃ d, compose (some m) (some (.fn f)) = .ok d) :=
  ⟨fun _ => rfl, fun _ _ => ⟨_, rfl⟩⟩

/-- C5: for every metadata record and content function, the composed
document carries exactly the two fixed meta tags: the description tag with
content Personal website and the keywords tag with content blog, showcase,
personal. -/
theorem compose_fixed_meta (m : SiteMetadata) (f : Unit → String) :
    ∃ d, compose (some m) (some (.fn f)) = .ok d ∧
      d.metaTags = [
        { name := "description", content := "Personal website" },
        { name := "keywords", content := "blog, showcase, personal" } ] :=
  ⟨_, rfl, rfl⟩

/-- C6: if the body of an Article is empty, composing its content does not
fail: the document has an empty content region and the title tag and
header region are produced as usual. -/
theorem compose_empty_article_body (m : SiteMetadata) (a : Article)
    (hbody : a.body = "") :
    ∃ d, compose (some m) (some (.fn fun _ => a.body)) = .ok d ∧
      d.containerContent = some "" ∧ d.titleTag = some m.title ∧
      d.hasHeaderRegion = true := by
  refine ⟨_, rfl, ?_, rfl, rfl⟩
  simp [Document.containerContent, hbody]

/-- Witness for C6: the ssl-cav article with an empty body. -/
theorem compose_empty_article_body_witness :
    (sslCavArticle "").body = "" ∧
      ∃ d, compose (some configSiteMetadata)
          (some (.fn fun _ => (sslCavArticle "").body)) = .ok d ∧
        d.containerContent = some "" ∧
        d.titleTag = some configSiteMetadata.title ∧
        d.hasHeaderRegion = true :=
  ⟨rfl, compose_empty_article_body configSiteMetadata (sslCavArticle "") rfl⟩

/-- C7: at the concrete gatsby-config.js metadata and the content
producing the paragraph Hello, the composed document has title tag
Fahad Almusharraf - Website and its content region holds the paragraph. -/
theorem compose_concrete_example :
    ∃ d, compose (some configSiteMetadata)
        (some (.fn fun _ => "<p>Hello</p>")) = .ok d ∧
      d.titleTag = some "Fahad Almusharraf - Website" ∧
      d.containerContent = some "<p>Hello</p>" :=
  ⟨_, rfl, rfl, rfl⟩

/-- C8: for every metadata record and content function, the composed
document is exactly the fixed frame: the Helmet (title from the metadata,
the two fixed meta tags, the style tag whose css sets the body
background-color token), then the Header region, then the Container
holding the supplied content, in that order. -/
theorem compose_fixed_structure (m : SiteMetadata) (f : Unit → String) :
    compose (some m) (some (.fn f)) = .ok { body := [
      .helmet {
        title := m.title,
        meta := [
          { name := "description", content := "Personal website" },
          { name := "keywords", content := "blog, showcase, personal" } ],
        children := [ .styleTag "text/css" bodyStyleCss ] },
      .headerRegion,
      .container (f ()) ] } :=
  rfl

/-- C9: the composed output depends on the site metadata only through its
title: two metadata records agreeing on title (differing in author or any
other field) compose to identical results with any content. -/
theorem compose_depends_only_on_title (m₁ m₂ : SiteMetadata)
    (c : Option JsChild) (h : m₁.title = m₂.title) :
    compose (some m₁) c = compose (some m₂) c := by
  simp [compose, layoutQuery, h]

/-- Witness for C9: two records with the same title and different
authors. -/
theorem compose_depends_only_on_title_witness :
    compose (some { title := "T", author := "A" })
        (some (.fn fun _ => "x")) =
      compose (some { title := "T", author := "B" })
        (some (.fn fun _ => "x")) :=
  compose_depends_only_on_title
    { title := "T", author := "A" } { title := "T", author := "B" } _ rfl

/-- C10: the content parameter is consumed as a zero-argument function:
composition invokes it and places its result in the Container, and a
content supplied as plain markup (not callable) makes composition fail. -/
theorem compose_invokes_children (m : SiteMetadata) :
    (∀ f : Unit → String,
      ∃ d, compose (some m) (some (.fn f)) = .ok d ∧
        d.containerContent = some (f ())) ∧
    (∀ s, compose (some m) (some (.markup s)) =
      .error childrenNotCallableError) :=
  ⟨fun _ => ⟨_, rfl, rfl⟩, fun _ => rfl⟩

end Falmusha
